import Mathlib

/-!
Verification of `homeassistant/components/sensor/sensehat.py`.

The module polls a Sense HAT board for temperature, humidity and pressure.
We embed its numeric pipeline shallowly:

* Python `float`-or-`None` values become `Option ℚ` (exact rational
  arithmetic stands in for floats everywhere except the dedicated IEEE
  binary64 model in namespace `F64`, used for the bit-exact numerical claim).
* Python exceptions become `Except PyErr`. The sensor-board driver and the
  CPU-temperature source are external collaborators, so each board channel
  and the CPU read enter the model as an `Except PyErr (Option ℚ)` /
  `Except PyErr ℚ` input: `.error` means that collaborator raised.
* Mutation of `self._readings_history` / `self._state` becomes explicit
  state passing on `TempState`; an update returns the (possibly partially)
  mutated state together with the exception that escaped, if any.
-/

/-- `MAX_READING_HISTORY_SIZE = 5` (sensehat.py line 30). -/
def MAX_READING_HISTORY_SIZE : ℕ := 5

/-- `MIN_TIME_BETWEEN_UPDATES = timedelta(seconds=60)` (line 29), in seconds. -/
def MIN_TIME_BETWEEN_UPDATES : ℕ := 60

/-- A Python value that is either a number or `None`. -/
abbrev Value := Option ℚ

/-- The Python exceptions that can cross the boundaries we model.
`boardError` / `cpuError` stand for whatever the sensor-board driver or the
CPU-temperature retrieval raises. -/
inductive PyErr where
  | typeError
  | zeroDivisionError
  | boardError
  | cpuError
deriving DecidableEq

/-- Python `sum` over a list of float-or-`None` values: starts from `0`,
adds left to right, and raises `TypeError` at the first `None`
(as `sum(self._readings_history)` does on line 115). -/
def pySumAux : ℚ → List Value → Except PyErr ℚ
  | acc, [] => .ok acc
  | _, none :: _ => .error .typeError
  | acc, some x :: rest => pySumAux (acc + x) rest

def pySum (l : List Value) : Except PyErr ℚ :=
  pySumAux 0 l

/-- `sum(self._readings_history) / len(self._readings_history)` (line 115):
Python evaluates the sum first (raising `TypeError` on a `None` entry),
then divides, raising `ZeroDivisionError` on an empty list. -/
def pyMean (l : List Value) : Except PyErr ℚ :=
  match pySum l with
  | .error e => .error e
  | .ok s => if l.length = 0 then .error .zeroDivisionError else .ok (s / l.length)

/-- `_update_readings_history` (lines 174-179): append the new reading, then
pop from the front `len - max` times whenever the length exceeds the
capacity; popping the first element `n` times is `List.drop n`. -/
def update_readings_history (readings_history : List Value) (new_reading : Value)
    (max_history_size : ℕ) : List Value :=
  let h := readings_history ++ [new_reading]
  if h.length > max_history_size then h.drop (h.length - max_history_size) else h

/-- `_normalise_current_temperature` (lines 162-171): pass `None` or an
uncoupled board's reading through untouched (no CPU read happens); otherwise
read the CPU temperature (which may raise) and compensate. -/
def normalise_current_temperature (temperature : Value) (hat_attached : Bool)
    (cpu : Except PyErr ℚ) : Except PyErr Value :=
  match temperature, hat_attached with
  | none, _ => .ok none
  | some t, false => .ok (some t)
  | some t, true => cpu.map (fun c => some (t - ((c - t) / (3 / 2))))

/-- `TemperatureSensor._get_temperature` (lines 117-126): the string
`self._from_sensor` selects the channel; anything other than `'humidity'`
and `'pressure'` takes the `else` branch, which calls the humidity channel
first, then the pressure channel, and averages — `None + x` raises
`TypeError` in Python, so an absent channel raises rather than falling back. -/
def get_temperature (from_sensor : String) (h p : Except PyErr Value) :
    Except PyErr Value :=
  if from_sensor = "humidity" then h
  else if from_sensor = "pressure" then p
  else
    match h with
    | .error e => .error e
    | .ok hv =>
      match p with
      | .error e => .error e
      | .ok pv =>
        match hv, pv with
        | some a, some b => .ok (some ((a + b) / 2))
        | _, _ => .error .typeError

/-- The mutable fields of a `TemperatureSensor`: `self._readings_history`
and `self._state`. -/
structure TempState where
  history : List Value
  state : Value
deriving DecidableEq

/-- `TemperatureSensor.update` (lines 102-115), one tick.  The board
channels `h`, `p` and the CPU read `cpu` are the collaborator inputs for
this tick.  Python mutates `self` statement by statement, so an exception
leaves the mutations made so far in place: the pair returned is the state
after the tick together with the exception that escaped `update`, if any. -/
def TemperatureSensor.update (from_sensor : String) (is_attached : Bool)
    (h p : Except PyErr Value) (cpu : Except PyErr ℚ) (s : TempState) :
    TempState × Option PyErr :=
  match get_temperature from_sensor h p with
  | .error e => (s, some e)
  | .ok t =>
    match normalise_current_temperature t is_attached cpu with
    | .error e => (s, some e)
    | .ok t' =>
      let hist := update_readings_history s.history t' MAX_READING_HISTORY_SIZE
      match pyMean hist with
      | .error e => ({ s with history := hist }, some e)
      | .ok v => ({ history := hist, state := some v }, none)

/-- The collaborator inputs of one temperature tick. -/
structure TempInput where
  from_sensor : String
  is_attached : Bool
  h : Except PyErr Value
  p : Except PyErr Value
  cpu : Except PyErr ℚ

/-- The compensated reading a tick appends to the history, when the pipeline
up to the append succeeds; `none` here means an exception fired before the
append (so the history is untouched). -/
def obtainedReading (i : TempInput) : Option Value :=
  match get_temperature i.from_sensor i.h i.p with
  | .error _ => none
  | .ok t =>
    match normalise_current_temperature t i.is_attached i.cpu with
    | .error _ => none
    | .ok t' => some t'

/-- A run of `update` ticks starting from a freshly constructed sensor
(`self._readings_history = []`, `self._state = None`, lines 96-100). -/
def TemperatureSensor.run (inputs : List TempInput) : TempState :=
  inputs.foldl
    (fun s i => (TemperatureSensor.update i.from_sensor i.is_attached i.h i.p i.cpu s).1)
    ⟨[], none⟩

/-!
The host framework's `Throttle` decorator (from `homeassistant.util`,
applied on lines 79, 89 and 102) is not part of the two files under
verification, so it is modelled from the spec below.  Time is a natural
number of seconds.
-/

/-- The throttled part of a sensor: its wrapped state together with the
timestamp of the previous successful execution, if any. -/
structure Throttled (σ : Type) where
  st : σ
  lastRun : Option ℕ
deriving DecidableEq

/-- Modelled from the spec: the `Throttle` decorator of `homeassistant.util`
is outside the two source files; per the spec it "suppresses re-execution if
the previous successful execution occurred less than a fixed interval
(default 60 seconds) ago — concurrent/overlapping ticks during the throttle
window are no-ops that reuse the last published state", with a per-instance
"last successful run" timestamp. -/
def throttle {σ : Type} (interval : ℕ) (f : σ → σ) (now : ℕ)
    (s : Throttled σ) : Throttled σ :=
  match s.lastRun with
  | some t => if now < t + interval then s else ⟨f s.st, some now⟩
  | none => ⟨f s.st, some now⟩

/-- `HumiditySensor.update` (lines 79-81): under the throttle, publish the
raw humidity read verbatim.  `raw` is the value `get_humidity` returns for
this tick. -/
def HumiditySensor.update (raw : ℚ) (now : ℕ) (s : Throttled Value) :
    Throttled Value :=
  throttle MIN_TIME_BETWEEN_UPDATES (fun _ => some raw) now s

namespace F64

/-!
An exact model of IEEE-754 binary64 ("double") arithmetic for the values the
compensation formula manipulates: a finite double is represented by the
rational number it denotes, and every operation rounds its exact rational
result to 53 significant bits with round-to-nearest, ties-to-even — which is
IEEE semantics for each single operation.  Subnormal precision loss is
modelled by clamping the scale exponent at the IEEE minimum -1074; overflow
to infinity is not modelled (the values exercised here are far below the
overflow threshold).
-/

/-- Number of binary digits of a natural number (`0` for `0`), computed with
explicit fuel so that the kernel can evaluate it; fuel `2200` is exact for
every number below `2 ^ 2200`, far beyond the binary64 range. -/
def bitlenAux : ℕ → ℕ → ℕ
  | 0, _ => 0
  | _ + 1, 0 => 0
  | fuel + 1, n => if n < 2 then 1 else bitlenAux fuel (n / 2) + 1

def bitlen (n : ℕ) : ℕ := bitlenAux 2200 n

/-- `⌊log₂ (a / b)⌋` for positive naturals `a`, `b`: the bit-length
difference is off by at most one, corrected by one exact comparison. -/
def floorLog2 (a b : ℕ) : ℤ :=
  let d : ℤ := (bitlen a : ℤ) - (bitlen b : ℤ)
  if b * 2 ^ (max 0 d).toNat ≤ a * 2 ^ (max 0 (-d)).toNat then d else d - 1

/-- Round the positive rational `a / b` to the nearest binary64 value
(ties to even), returned as the exact rational it denotes.  The scale
exponent `e` puts the significand in `[2^52, 2^53)` (clamped at the
subnormal limit), and the significand is the correctly rounded integer
quotient `(a / b) * 2^(-e)`. -/
def roundPos (a b : ℕ) : ℚ :=
  let e : ℤ := max (floorLog2 a b - 52) (-1074)
  let N : ℕ := a * 2 ^ (max 0 (-e)).toNat
  let D : ℕ := b * 2 ^ (max 0 e).toNat
  let n : ℕ := N / D
  let r : ℕ := N % D
  let n' : ℕ :=
    if D < 2 * r then n + 1
    else if 2 * r < D then n
    else if n % 2 = 0 then n else n + 1
  if 0 ≤ e then ((n' * 2 ^ e.toNat : ℕ) : ℚ)
  else (n' : ℚ) / ((2 ^ (-e).toNat : ℕ) : ℚ)

/-- Round a rational to the nearest binary64 value (round to nearest, ties
to even), as the exact rational it denotes. -/
def fl (q : ℚ) : ℚ :=
  if q = 0 then 0
  else if 0 < q then roundPos q.num.toNat q.den
  else -roundPos (-q.num).toNat q.den

/-- IEEE binary64 subtraction: exact difference, then one rounding. -/
def fSub (x y : ℚ) : ℚ := fl (x - y)

/-- IEEE binary64 division: exact quotient, then one rounding. -/
def fDiv (x y : ℚ) : ℚ := fl (x / y)

/-- `_normalise_current_temperature` (lines 162-171) over the binary64
model, with the CPU temperature already read; the literal `1.5` is exactly
representable, so it denotes `3 / 2`, and the Python expression
`temperature - ((cpu_temperature - temperature) / 1.5)` performs exactly one
subtraction, one division by `1.5`, and one more subtraction, each rounded. -/
def normalise_current_temperature (temperature : Option ℚ) (hat_attached : Bool)
    (cpu : ℚ) : Option ℚ :=
  match temperature, hat_attached with
  | none, _ => none
  | some t, false => some t
  | some t, true => some (fSub t (fDiv (fSub cpu t) (3 / 2)))

end F64

/-! ## Helper lemmas -/

theorem pySumAux_all_present : ∀ (l : List Value) (acc : ℚ), (∀ x ∈ l, x ≠ none) →
    pySumAux acc l = .ok (acc + (l.filterMap id).sum)
  | [], acc, _ => by simp [pySumAux]
  | none :: l, _, hp => absurd rfl (hp none (by simp))
  | some x :: l, acc, hp => by
    have ih := pySumAux_all_present l (acc + x) fun y hy => hp y (List.mem_cons_of_mem _ hy)
    simp [pySumAux, ih, add_assoc]

theorem pySumAux_has_none : ∀ (l : List Value) (acc : ℚ), (∃ x ∈ l, x = none) →
    pySumAux acc l = .error .typeError
  | [], _, hp => by simp at hp
  | none :: l, _, _ => by simp [pySumAux]
  | some x :: l, acc, hp => by
    obtain ⟨y, hy, rfl⟩ := hp
    simp only [List.mem_cons] at hy
    rcases hy with hy | hy
    · cases hy
    · simpa [pySumAux] using pySumAux_has_none l (acc + x) ⟨none, hy, rfl⟩

theorem pySumAux_ne_zeroDiv : ∀ (l : List Value) (acc : ℚ),
    pySumAux acc l ≠ .error .zeroDivisionError
  | [], _ => by simp [pySumAux]
  | none :: l, _ => by simp [pySumAux]
  | some x :: l, acc => by simpa [pySumAux] using pySumAux_ne_zeroDiv l (acc + x)

theorem pyMean_all_present (l : List Value) (h1 : l ≠ []) (h2 : ∀ x ∈ l, x ≠ none) :
    pyMean l = .ok ((l.filterMap id).sum / (l.length : ℚ)) := by
  have hs := pySumAux_all_present l 0 h2
  simp [pyMean, pySum, hs, List.length_eq_zero, h1]

theorem pyMean_has_none (l : List Value) (hp : ∃ x ∈ l, x = none) :
    pyMean l = .error .typeError := by
  have hs := pySumAux_has_none l 0 hp
  simp [pyMean, pySum, hs]

theorem pyMean_ne_zeroDiv (l : List Value) (h1 : l ≠ []) :
    pyMean l ≠ .error .zeroDivisionError := by
  have hs := pySumAux_ne_zeroDiv l 0
  unfold pyMean pySum
  cases he : pySumAux 0 l with
  | error e =>
    rw [he] at hs
    simpa using fun hc => hs (by rw [hc])
  | ok v => simp [List.length_eq_zero, h1]

theorem update_readings_history_eq_drop (h : List Value) (r : Value) (m : ℕ) :
    update_readings_history h r m = (h ++ [r]).drop (h.length + 1 - m) := by
  unfold update_readings_history
  simp only [List.length_append, List.length_cons, List.length_nil]
  split
  · rfl
  · have : h.length + 0 + 1 - m = 0 := by omega
    simp [this]

theorem update_readings_history_length (h : List Value) (r : Value) (m : ℕ) :
    (update_readings_history h r m).length = min (h.length + 1) m := by
  rw [update_readings_history_eq_drop]
  simp [List.length_drop]
  omega

theorem update_readings_history_suffix (h : List Value) (r : Value) (m : ℕ) :
    update_readings_history h r m <:+ h ++ [r] := by
  rw [update_readings_history_eq_drop]
  exact List.drop_suffix _ _

theorem update_readings_history_ne_nil (h : List Value) (r : Value) :
    update_readings_history h r MAX_READING_HISTORY_SIZE ≠ [] := by
  have hl := update_readings_history_length h r MAX_READING_HISTORY_SIZE
  intro hc
  rw [hc] at hl
  simp only [List.length_nil, MAX_READING_HISTORY_SIZE] at hl
  omega

theorem update_history_cases (fs : String) (att : Bool) (hch pch : Except PyErr Value)
    (cpu : Except PyErr ℚ) (s : TempState) :
    (TemperatureSensor.update fs att hch pch cpu s).1.history =
      match obtainedReading ⟨fs, att, hch, pch, cpu⟩ with
      | some r => update_readings_history s.history r MAX_READING_HISTORY_SIZE
      | none => s.history := by
  unfold TemperatureSensor.update obtainedReading
  rcases hg : get_temperature fs hch pch with e | t
  · simp [hg]
  · rcases hn : normalise_current_temperature t att cpu with e | t'
    · simp [hg, hn]
    · rcases hm : pyMean (update_readings_history s.history t' MAX_READING_HISTORY_SIZE)
        with e | v
      · simp [hg, hn, hm]
      · simp [hg, hn, hm]

/-- C5: if the raw temperature is absent or the board is not thermally
coupled, `_normalise_current_temperature` returns its input unchanged and no
CPU read is attempted — the result is `ok` even when the CPU read would
raise (arbitrary `cpu`, including `.error`); in particular
`compensate(absent, coupled=False)` is absent and
`compensate(24.9, coupled=False)` is `24.9`. -/
theorem claim_C5 (t : Value) (b : Bool) (cpu : Except PyErr ℚ) (q : ℚ) :
    normalise_current_temperature none b cpu = .ok none ∧
    normalise_current_temperature t false cpu = .ok t ∧
    normalise_current_temperature (some q) false (.error .cpuError) = .ok (some q) ∧
    normalise_current_temperature (some (249/10)) false (.error .cpuError) =
      .ok (some (249/10)) := by
  refine ⟨?_, ?_, rfl, rfl⟩
  · cases b <;> rfl
  · cases t <;> rfl

/-- C6: `_update_readings_history` appends the new reading at the end, and
whenever the resulting length exceeds the capacity it evicts from the front
until the length equals the capacity (the result is a suffix of the appended
list of length exactly the capacity, covering multi-step eviction);
`[10,11,12]` with capacity 3 appending `13` gives `[11,12,13]`, and
`[10,11,12,13]` with capacity 3 appending `14` gives `[12,13,14]`. -/
theorem claim_C6 (h : List Value) (r : Value) (m : ℕ) :
    (h.length + 1 ≤ m → update_readings_history h r m = h ++ [r]) ∧
    (m < h.length + 1 →
      (update_readings_history h r m).length = m ∧
      update_readings_history h r m <:+ h ++ [r]) ∧
    update_readings_history [some 10, some 11, some 12] (some 13) 3 =
      [some 11, some 12, some 13] ∧
    update_readings_history [some 10, some 11, some 12, some 13] (some 14) 3 =
      [some 12, some 13, some 14] := by
  refine ⟨?_, ?_, by with_unfolding_all rfl, by with_unfolding_all rfl⟩
  · intro hle
    rw [update_readings_history_eq_drop]
    have : h.length + 1 - m = 0 := by omega
    rw [this, List.drop_zero]
  · intro hlt
    refine ⟨?_, update_readings_history_suffix h r m⟩
    rw [update_readings_history_length]
    omega

/-- C6 witness: the capacity-respecting append at `[10]` + `11` with room to
spare, and the one-step eviction at `[10,11,12]` + `13` with capacity 3. -/
theorem claim_C6_witness :
    update_readings_history [some 10] (some 11) 5 = [some 10, some 11] ∧
    (update_readings_history [some 10, some 11, some 12] (some 13) 3).length = 3 ∧
    update_readings_history [some 10, some 11, some 12] (some 13) 3 <:+
      [some 10, some 11, some 12] ++ [some 13] :=
  ⟨(claim_C6 [some 10] (some 11) 5).1 (by norm_num),
    ((claim_C6 [some 10, some 11, some 12] (some 13) 3).2.1 (by norm_num)).1,
    ((claim_C6 [some 10, some 11, some 12] (some 13) 3).2.1 (by norm_num)).2⟩

/-- C9: the history handed to the mean computation on line 115 is never
empty (a reading was just appended and eviction stops at the capacity 5), so
the division by `len(self._readings_history)` never divides by zero: the
mean computation performed by `update` never raises `ZeroDivisionError`. -/
theorem claim_C9 :
    (∀ (h : List Value) (r : Value),
      update_readings_history h r MAX_READING_HISTORY_SIZE ≠ []) ∧
    (∀ (h : List Value) (r : Value),
      pyMean (update_readings_history h r MAX_READING_HISTORY_SIZE) ≠
        .error .zeroDivisionError) :=
  ⟨fun h r => update_readings_history_ne_nil h r,
   fun h r => pyMean_ne_zeroDiv _ (update_readings_history_ne_nil h r)⟩

/-- C10: the configured temperature-source string is not validated; any
string other than `'humidity'` and `'pressure'` falls into the `else`
branch of `_get_temperature` and behaves exactly as `'both'` does. -/
theorem claim_C10 (fs : String) (hch pch : Except PyErr Value)
    (h1 : fs ≠ "humidity") (h2 : fs ≠ "pressure") :
    get_temperature fs hch pch = get_temperature "both" hch pch := by
  unfold get_temperature
  rw [if_neg h1, if_neg h2, if_neg (by decide : ¬("both" : String) = "humidity"),
    if_neg (by decide : ¬("both" : String) = "pressure")]

/-- C10 witness: the capitalised source string `"Both"` is neither
`'humidity'` nor `'pressure'`, so it is handled exactly as `'both'`. -/
theorem claim_C10_witness :
    ("Both" : String) ≠ "humidity" ∧ ("Both" : String) ≠ "pressure" ∧
    get_temperature "Both" (.ok (some 1)) (.ok (some 2)) =
      get_temperature "both" (.ok (some 1)) (.ok (some 2)) :=
  ⟨by decide, by decide,
   claim_C10 "Both" (.ok (some 1)) (.ok (some 2)) (by decide) (by decide)⟩

/-- C7: starting from the empty history, the reading history's length never
exceeds `MAX_READING_HISTORY_SIZE` (5) after any sequence of updates, and
each update preserves insertion order: when the tick obtains a reading `r`
the new history is a suffix of the old history with `r` appended, and when
an exception aborts the tick before the append the history is unchanged. -/
theorem claim_C7 :
    (∀ inputs : List TempInput,
      (TemperatureSensor.run inputs).history.length ≤ MAX_READING_HISTORY_SIZE) ∧
    (∀ (i : TempInput) (s : TempState),
      match obtainedReading i with
      | some r =>
        (TemperatureSensor.update i.from_sensor i.is_attached i.h i.p i.cpu s).1.history
          <:+ s.history ++ [r]
      | none =>
        (TemperatureSensor.update i.from_sensor i.is_attached i.h i.p i.cpu s).1.history
          = s.history) := by
  constructor
  · have key : ∀ (l : List TempInput) (s : TempState),
        s.history.length ≤ MAX_READING_HISTORY_SIZE →
        ((l.foldl
          (fun s i => (TemperatureSensor.update i.from_sensor i.is_attached i.h i.p i.cpu s).1)
          s).history.length ≤ MAX_READING_HISTORY_SIZE) := by
      intro l
      induction l with
      | nil => intro s hs; exact hs
      | cons i l ih =>
        intro s hs
        rw [List.foldl_cons]
        apply ih
        obtain ⟨fs, att, hch, pch, cpu⟩ := i
        rw [update_history_cases]
        cases hobt : obtainedReading ⟨fs, att, hch, pch, cpu⟩ with
        | none => simpa using hs
        | some r =>
          simp only [update_readings_history_length, MAX_READING_HISTORY_SIZE]
          omega
    intro inputs
    exact key inputs ⟨[], none⟩ (by simp)
  · intro i s
    obtain ⟨fs, att, hch, pch, cpu⟩ := i
    cases hobt : obtainedReading ⟨fs, att, hch, pch, cpu⟩ with
    | none => simp only [update_history_cases, hobt]
    | some r =>
      simp only [update_history_cases, hobt]
      exact update_readings_history_suffix s.history r MAX_READING_HISTORY_SIZE

/-- C1 counterexample: the published-state computation does not skip absent
entries — `sum` over the history `[20, absent, 21.2, absent, 22.4]` raises
`TypeError` instead of yielding the mean `21.2` of the present entries.  The
tick below appends `22.4` to the history `[20, absent, 21.2, absent]` and
then fails at line 115, publishing nothing. -/
theorem claim_C1_counterexample :
    TemperatureSensor.update "humidity" false (.ok (some (112/5))) (.ok none)
      (.error .cpuError) ⟨[some 20, none, some (106/5), none], none⟩ =
      (⟨[some 20, none, some (106/5), none, some (112/5)], none⟩, some .typeError) ∧
    (TemperatureSensor.update "humidity" false (.ok (some (112/5))) (.ok none)
      (.error .cpuError) ⟨[some 20, none, some (106/5), none], none⟩).1.state ≠
      some (106/5) := by
  have h1 : TemperatureSensor.update "humidity" false (.ok (some (112/5))) (.ok none)
      (.error .cpuError) ⟨[some 20, none, some (106/5), none], none⟩ =
      (⟨[some 20, none, some (106/5), none, some (112/5)], none⟩, some .typeError) := by
    with_unfolding_all rfl
  refine ⟨h1, ?_⟩
  rw [h1]
  simp

/-- C1 (amended): when the tick obtains a reading, the updated history is
appended (and bounded); if every entry of the updated history is present the
published state is their arithmetic mean (sum over length, which is also the
mean of the present entries), but if any entry is absent the mean
computation raises `TypeError` and nothing is published for that tick. -/
theorem claim_C1_amended (fs : String) (att : Bool) (hch pch : Except PyErr Value)
    (cpu : Except PyErr ℚ) (s : TempState) (t' : Value) (hist : List Value)
    (hobt : obtainedReading ⟨fs, att, hch, pch, cpu⟩ = some t')
    (hhist : hist = update_readings_history s.history t' MAX_READING_HISTORY_SIZE) :
    ((∀ x ∈ hist, x ≠ none) →
      TemperatureSensor.update fs att hch pch cpu s =
        ({ history := hist,
           state := some ((hist.filterMap id).sum / (hist.length : ℚ)) }, none)) ∧
    ((∃ x ∈ hist, x = none) →
      TemperatureSensor.update fs att hch pch cpu s =
        ({ s with history := hist }, some .typeError)) := by
  subst hhist
  unfold obtainedReading at hobt
  rcases hg : get_temperature fs hch pch with e | t
  · simp only [hg] at hobt
    cases hobt
  · simp only [hg] at hobt
    rcases hn : normalise_current_temperature t att cpu with e | t''
    · simp only [hn] at hobt
      cases hobt
    · simp only [hn, Option.some.injEq] at hobt
      subst hobt
      constructor
      · intro hall
        have hm := pyMean_all_present _ (update_readings_history_ne_nil s.history t'') hall
        unfold TemperatureSensor.update
        simp [hg, hn, hm]
      · intro hnone
        have hm := pyMean_has_none _ hnone
        unfold TemperatureSensor.update
        simp [hg, hn, hm]

/-- C1 witness: a tick reading `22` with prior history `[20]` publishes the
mean `21`. -/
theorem claim_C1_witness :
    obtainedReading ⟨"humidity", false, .ok (some 22), .ok none, .error .cpuError⟩ =
      some (some 22) ∧
    ([some 20, some 22] : List Value) =
      update_readings_history [some 20] (some 22) MAX_READING_HISTORY_SIZE ∧
    TemperatureSensor.update "humidity" false (.ok (some 22)) (.ok none)
      (.error .cpuError) ⟨[some 20], none⟩ =
      (⟨[some 20, some 22], some 21⟩, none) := by
  have h1 : obtainedReading ⟨"humidity", false, .ok (some 22), .ok none, .error .cpuError⟩ =
      some (some 22) := by with_unfolding_all rfl
  have h2 : ([some 20, some 22] : List Value) =
      update_readings_history [some 20] (some 22) MAX_READING_HISTORY_SIZE := by
    with_unfolding_all rfl
  have h3 := (claim_C1_amended "humidity" false (.ok (some 22)) (.ok none) (.error .cpuError)
    ⟨[some 20], none⟩ (some 22) [some 20, some 22] h1 h2).1 (by simp)
  refine ⟨h1, h2, ?_⟩
  rw [h3]
  simp only [List.filterMap_cons, List.filterMap_nil, id, List.sum_cons, List.sum_nil,
    List.length_cons, List.length_nil]
  norm_num

/-- C2 counterexample: with temperature source `'both'`, the humidity
channel absent and the pressure channel `21.5`, `_get_temperature` raises
`TypeError` (`None + 21.5`) instead of falling back to `21.5`. -/
theorem claim_C2_counterexample :
    get_temperature "both" (.ok none) (.ok (some (43/2))) = .error .typeError ∧
    get_temperature "both" (.ok none) (.ok (some (43/2))) ≠ .ok (some (43/2)) := by
  have h1 : get_temperature "both" (.ok none) (.ok (some (43/2))) = .error .typeError := by
    with_unfolding_all rfl
  refine ⟨h1, ?_⟩
  rw [h1]
  simp

/-- C2 (amended): with temperature source `'both'`, the raw temperature is
the average of the two channel readings when both are present; when either
channel (or both) is absent the addition raises `TypeError` — there is no
fallback to the sole present reading and no absent result. -/
theorem claim_C2_amended (a b : ℚ) :
    get_temperature "both" (.ok (some a)) (.ok (some b)) = .ok (some ((a + b) / 2)) ∧
    get_temperature "both" (.ok none) (.ok (some b)) = .error .typeError ∧
    get_temperature "both" (.ok (some a)) (.ok none) = .error .typeError ∧
    get_temperature "both" (.ok none) (.ok none) = .error .typeError := by
  refine ⟨?_, ?_, ?_, ?_⟩ <;> with_unfolding_all rfl

/-- C3 counterexample: a failing board read is not contained — the exception
escapes `TemperatureSensor.update` (the second component records the
exception that propagated out of the tick instead of `none`). -/
theorem claim_C3_counterexample :
    (TemperatureSensor.update "humidity" true (.error .boardError) (.ok none)
      (.ok (489/10)) ⟨[], none⟩).2 = some .boardError ∧
    (TemperatureSensor.update "humidity" true (.error .boardError) (.ok none)
      (.ok (489/10)) ⟨[], none⟩).2 ≠ none := by
  have h1 : (TemperatureSensor.update "humidity" true (.error .boardError) (.ok none)
      (.ok (489/10)) ⟨[], none⟩).2 = some .boardError := by
    with_unfolding_all rfl
  refine ⟨h1, ?_⟩
  rw [h1]
  simp

/-- C3 (amended): `update` has no exception handler, so a failure of the
sensor-board read on the channel actually consulted, or of the CPU
temperature retrieval on a coupled board with a present reading, propagates
its exception out of `update`; the sensor state is left as it was (nothing
is published for that tick). -/
theorem claim_C3_amended (att : Bool) (e : PyErr) (hch pch : Except PyErr Value)
    (cpu : Except PyErr ℚ) (s : TempState) (fs : String) (t : ℚ)
    (hget : get_temperature fs hch pch = .ok (some t)) :
    TemperatureSensor.update "humidity" att (.error e) pch cpu s = (s, some e) ∧
    TemperatureSensor.update "pressure" att hch (.error e) cpu s = (s, some e) ∧
    TemperatureSensor.update "both" att (.error e) pch cpu s = (s, some e) ∧
    TemperatureSensor.update fs true hch pch (.error e) s = (s, some e) := by
  refine ⟨?_, ?_, ?_, ?_⟩
  · unfold TemperatureSensor.update
    simp [get_temperature]
  · unfold TemperatureSensor.update
    simp [get_temperature]
  · unfold TemperatureSensor.update
    simp [get_temperature]
  · unfold TemperatureSensor.update
    simp [hget, normalise_current_temperature, Except.map]

/-- C3 witness: on a coupled board with both channels reading `20`, a
failing CPU-temperature retrieval escapes the tick, as does a failing
humidity-channel read. -/
theorem claim_C3_witness :
    TemperatureSensor.update "humidity" false (.error .boardError) (.ok (some 20))
      (.ok 20) ⟨[], none⟩ = (⟨[], none⟩, some .boardError) ∧
    TemperatureSensor.update "pressure" false (.ok (some 20)) (.error .boardError)
      (.ok 20) ⟨[], none⟩ = (⟨[], none⟩, some .boardError) ∧
    TemperatureSensor.update "both" false (.error .boardError) (.ok (some 20))
      (.ok 20) ⟨[], none⟩ = (⟨[], none⟩, some .boardError) ∧
    TemperatureSensor.update "humidity" true (.ok (some 20)) (.ok (some 20))
      (.error .boardError) ⟨[], none⟩ = (⟨[], none⟩, some .boardError) :=
  claim_C3_amended false .boardError (.ok (some 20)) (.ok (some 20)) (.ok 20)
    ⟨[], none⟩ "humidity" 20 (by with_unfolding_all rfl)

/-- C4: with a coupled board and a present reading, the compensated
temperature is `raw - ((cpu - raw) / 1.5)` with each operation rounded to
binary64 (one subtraction, one division, one subtraction); for the raw
reading `34.5` (exactly representable: `fl (69/2) = 69/2`) and CPU
temperature `48.9`, the result is exactly the binary64 value of `24.9`. -/
theorem claim_C4 :
    (∀ t c : ℚ, F64.normalise_current_temperature (some t) true c =
      some (F64.fSub t (F64.fDiv (F64.fSub c t) (3 / 2)))) ∧
    F64.fl (69 / 2) = 69 / 2 ∧
    F64.normalise_current_temperature (some (F64.fl (69 / 2))) true (F64.fl (489 / 10)) =
      some (F64.fl (249 / 10)) := by
  refine ⟨fun t c => rfl, ?_, ?_⟩ <;> with_unfolding_all rfl

/-- C8: two update calls on a throttled sensor less than
`MIN_TIME_BETWEEN_UPDATES` (60 s) apart: after a first call that executed at
time `t`, a second call at any `now < t + 60` is a no-op leaving the whole
state (published value and timestamp) unchanged, even though the raw reading
`raw2` of the second call is arbitrary — the throttle never consults it. -/
theorem claim_C8 (raw1 raw2 : ℚ) (t now : ℕ) (s0 : Throttled Value)
    (hfirst : (HumiditySensor.update raw1 t s0).lastRun = some t)
    (hwin : now < t + MIN_TIME_BETWEEN_UPDATES) :
    HumiditySensor.update raw2 now (HumiditySensor.update raw1 t s0) =
      HumiditySensor.update raw1 t s0 := by
  generalize HumiditySensor.update raw1 t s0 = s1 at hfirst ⊢
  unfold HumiditySensor.update throttle
  simp only [hfirst]
  rw [if_pos hwin]

/-- C8 witness: a fresh sensor updated at `t = 0` with raw value `1`, then
again at `now = 59` with a changed raw value `2`: the second call changes
nothing. -/
theorem claim_C8_witness :
    HumiditySensor.update 2 59 (HumiditySensor.update 1 0 ⟨none, none⟩) =
      HumiditySensor.update 1 0 ⟨none, none⟩ :=
  claim_C8 1 2 0 59 ⟨none, none⟩ (by with_unfolding_all rfl)
    (by norm_num [MIN_TIME_BETWEEN_UPDATES])
